import Mathlib

/-!
# Starli specs cache: a shallow embedding of `utils/specs.go`

The Go functions of `utils/specs.go` are embedded as pure functions over an
explicit cache state.  The three paths computed by `GetStarliCacheDir`,
`GetStarliSpecsCacheDir` and `GetStarliSpecsEtagFile` are the three components
of that state: the cache root, the specs directory and the marker file.
Every call into the operating system, the object storage client or the archive
helper is given its result by the environment
(`Faults`, `Remote`, `Env`), so that each `if err != nil` branch of the source
is reachable in the model.
-/

namespace Starli

/-! ## Data model -/

/-- Go error values.  `notExist` is the class recognised by
`errors.Is(err, os.ErrNotExist)`; every other error carries its message. -/
inductive Err where
  | notExist : Err
  | other (msg : String) : Err
  deriving DecidableEq, Repr

/-- The test `errors.Is(err, os.ErrNotExist)`. -/
def Err.isNotExist : Err → Bool
  | .notExist => true
  | .other _ => false

/-- Go struct `SpecsTemplateQuestion`. -/
structure SpecsTemplateQuestion where
  Name : String
  Message : String
  Default : String
  deriving DecidableEq, Repr

/-- Go struct `SpecTemplateStaticFile`. -/
structure SpecTemplateStaticFile where
  Name : String
  Path : String
  Content : String
  deriving DecidableEq, Repr

/-- Go struct `SpecTemplate`. -/
structure SpecTemplate where
  Name : String
  StaticFiles : List SpecTemplateStaticFile
  Questions : List SpecsTemplateQuestion
  deriving DecidableEq, Repr

/-- The zero value of `SpecTemplate` (`var template SpecTemplate`). -/
def SpecTemplate.zero : SpecTemplate := ⟨"", [], []⟩

/-- One directory `templates/<dir>/` of the specs directory: its name, the
content of its `starli.json` when that file is there, and its other files. -/
structure TemplateDir where
  dir : String
  descriptor : Option String
  assets : List (String × String)
  deriving DecidableEq, Repr

/-- The content of the specs directory, in directory scan order. -/
abbrev SpecsTree := List TemplateDir

/-- The on-disk cache: whether the cache root directory exists, the content of
the etag marker file when present, and the specs directory when present. -/
structure Cache where
  root : Bool
  marker : Option String
  specs : Option SpecsTree
  deriving DecidableEq, Repr

/-- Bytes of the remote tar object. -/
abbrev Archive := String

/-- The remote object `specs.tar`: its entity tag and its bytes. -/
structure Remote where
  etag : String
  archive : Archive
  deriving DecidableEq, Repr

/-- A failing `os.WriteFile`: its message, and how far it got.  The call opens
the file with `O_WRONLY|O_CREATE|O_TRUNC` and then writes: `written = none` is
a failure to open, which leaves the file as it was; `written = some n` is a
failure after the file was created and truncated, with the first `n` bytes of
the data in it. -/
structure WriteFault where
  msg : String
  written : Option Nat
  deriving DecidableEq, Repr

/-- Failures the environment injects into one call of a synchronizer or catalog
operation.  `some msg` makes the named system call return an error with that
message (an error other than not-found); `none` lets it act on the state. -/
structure Faults where
  statRoot : Option String
  statMarker : Option String
  statSpecs : Option String
  mkdirAll : Option String
  newClient : Option String
  attrs : Option String
  readMarker : Option String
  newReader : Option String
  writeMarker : Option WriteFault
  removeAll : Option String
  remove : Option String
  glob : Option String
  readDescriptor : String → Option String

/-- No injected failure. -/
def Faults.none : Faults :=
  ⟨.none, .none, .none, .none, .none, .none, .none, .none, .none, .none, .none, .none,
    fun _ => .none⟩

/-- Library and helper functions that `specs.go` calls and that are not part of
the file, taken as parameters: `unicode.ToLower`, `json.Unmarshal` into a
`SpecTemplate`, and the archive helper `Untar`.

`Untar(GetStarliCacheDir(), rc)` is given the cache root, the directory that
holds both the specs directory and the marker file, and the bytes of the
archive.  It may therefore change any part of the cache, the marker file
included.  It returns the cache it leaves behind (also when it stops half
way) and its error. -/
structure Env where
  lowerRune : Char → Char
  unmarshal : String → SpecTemplate × Option Err
  untar : Archive → Cache → Cache × Option Err

/-! ## System calls -/

/-- The error of `os.Stat` on a path that is present or not. -/
def osStat (fault : Option String) (present : Bool) : Option Err :=
  match fault with
  | some m => some (.other m)
  | none => if present then none else some .notExist

/-- The result of `os.ReadFile`: the content, or an error. -/
def osReadFile (fault : Option String) (file : Option String) : Except Err String :=
  match fault with
  | some m => .error (.other m)
  | none =>
    match file with
    | some s => .ok s
    | none => .error .notExist

/-! ## Exists -/

/-- Go `CheckIfSpecsExists`: stat the marker file, then the specs directory. -/
def CheckIfSpecsExists (f : Faults) (c : Cache) : Bool × Option Err :=
  match osStat f.statMarker c.marker.isSome with
  | some e => if e.isNotExist then (false, none) else (false, some e)
  | none =>
    match osStat f.statSpecs c.specs.isSome with
    | some e => if e.isNotExist then (false, none) else (false, some e)
    | none => (true, none)

/-! ## Observable events -/

/-- What a call does besides changing the cache: spinner messages, console
output, the calls made to the remote and to the archive helper, and the call
that writes the marker file. -/
inductive Event where
  | spinStart (text : String)
  | spinFail (msg : String)
  | spinSucceed (msg : String)
  | printed (msg : String)
  | clientInit
  | attrsFetch
  | readerOpen
  | extract
  | markerWrite
  deriving DecidableEq, Repr

/-- The spinner messages among the events. -/
def Event.isSpinner : Event → Bool
  | .spinStart _ => true
  | .spinFail _ => true
  | .spinSucceed _ => true
  | _ => false

/-- The result of a synchronizer operation: the returned error, the cache it
leaves and the events in order. -/
structure Outcome where
  err : Option Err
  cache : Cache
  log : List Event
  deriving DecidableEq, Repr

/-- The guarded creation of the cache root shared by install and refresh:
`if _, err := os.Stat(dir); errors.Is(err, os.ErrNotExist)` then
`os.MkdirAll(dir, os.ModePerm)`.  A stat error other than not-found is
ignored by the source. -/
def ensureRoot (f : Faults) (c : Cache) : Except Err Cache :=
  match osStat f.statRoot c.root with
  | some e =>
    if e.isNotExist then
      match f.mkdirAll with
      | some m => .error (.other m)
      | none => .ok { c with root := true }
    else .ok c
  | none => .ok c

/-- The call `os.WriteFile(marker, data, 0644)`: the cache it leaves and its
error.  A successful call makes `data` the content of the marker file; a failed
one leaves the file as `WriteFault` describes. -/
def writeMarker (f : Faults) (c : Cache) (data : String) : Cache × Option Err :=
  match f.writeMarker with
  | some w =>
    match w.written with
    | none => (c, some (.other w.msg))
    | some n => ({ c with marker := some ⟨data.data.take n⟩ }, some (.other w.msg))
  | none => ({ c with marker := some data }, none)

/-! ## Install -/

/-- Go `DownloadSpecsDir`. -/
def DownloadSpecsDir (env : Env) (f : Faults) (r : Remote) (c : Cache) : Outcome :=
  let l0 := [Event.spinStart "Downloading Starli specs..."]
  match ensureRoot f c with
  | .error e => ⟨some e, c, l0 ++ [.spinFail "Failed to create starli directory"]⟩
  | .ok c1 =>
    match f.newClient with
    | some m =>
      ⟨some (.other m), c1,
        l0 ++ [.clientInit, .spinFail "Failed to initialize a Google Cloud Storage client"]⟩
    | none =>
      match f.newReader with
      | some m =>
        ⟨some (.other m), c1,
          l0 ++ [.clientInit, .readerOpen, .spinFail "Failed to download Starli specs"]⟩
      | none =>
        match env.untar r.archive c1 with
        | (c2, some e) =>
          ⟨some e, c2,
            l0 ++ [.clientInit, .readerOpen, .extract, .spinFail "Failed to untar Starli specs"]⟩
        | (c2, none) =>
          match f.attrs with
          | some m =>
            ⟨some (.other m), c2,
              l0 ++ [.clientInit, .readerOpen, .extract, .attrsFetch,
                .spinFail "Failed to get Starli specs attributes"]⟩
          | none =>
            match writeMarker f c2 r.etag with
            | (c3, some e) =>
              ⟨some e, c3,
                l0 ++ [.clientInit, .readerOpen, .extract, .attrsFetch, .markerWrite,
                  .spinFail "Failed to write Starli specs etag"]⟩
            | (c3, none) =>
              ⟨none, c3,
                l0 ++ [.clientInit, .readerOpen, .extract, .attrsFetch, .markerWrite,
                  .spinSucceed "Specs downloaded"]⟩

/-! ## Refresh -/

/-- A spinner call guarded by `if isVerbose`. -/
def spin (isVerbose : Bool) (e : Event) : List Event :=
  if isVerbose then [e] else []

/-- Go `UpdateSpecs`. -/
def UpdateSpecs (env : Env) (f : Faults) (r : Remote) (isVerbose : Bool) (c : Cache) :
    Outcome :=
  let l0 := spin isVerbose (.spinStart "Updating Starli specs...")
  match ensureRoot f c with
  | .error e => ⟨some e, c, l0 ++ spin isVerbose (.spinFail "Failed to create starli directory")⟩
  | .ok c1 =>
    match f.newClient with
    | some m =>
      ⟨some (.other m), c1, l0 ++ [.clientInit] ++
        spin isVerbose (.spinFail "Failed to initialize a Google Cloud Storage client")⟩
    | none =>
      match f.attrs with
      | some m =>
        ⟨some (.other m), c1, l0 ++ [.clientInit, .attrsFetch] ++
          spin isVerbose (.spinFail "Failed to get Starli specs attributes")⟩
      | none =>
        match osReadFile f.readMarker c1.marker with
        | .error e =>
          ⟨some e, c1, l0 ++ [.clientInit, .attrsFetch] ++
            spin isVerbose (.spinFail "Failed to read Starli specs etag")⟩
        | .ok existingEtag =>
          if existingEtag = r.etag then
            ⟨none, c1, l0 ++ [.clientInit, .attrsFetch] ++
              spin isVerbose (.spinSucceed "Specs up to date")⟩
          else
            match f.newReader with
            | some m =>
              ⟨some (.other m), c1, l0 ++ [.clientInit, .attrsFetch, .readerOpen] ++
                spin isVerbose (.spinFail "Failed to download Starli specs")⟩
            | none =>
              match env.untar r.archive c1 with
              | (c2, some e) =>
                ⟨some e, c2,
                  l0 ++ [.clientInit, .attrsFetch, .readerOpen, .extract] ++
                    spin isVerbose (.spinFail "Failed to untar Starli specs")⟩
              | (c2, none) =>
                match writeMarker f c2 r.etag with
                | (c3, some e) =>
                  ⟨some e, c3,
                    l0 ++ [.clientInit, .attrsFetch, .readerOpen, .extract, .markerWrite] ++
                    spin isVerbose (.spinFail "Failed to write Starli specs etag")⟩
                | (c3, none) =>
                  ⟨none, c3,
                    l0 ++ [.clientInit, .attrsFetch, .readerOpen, .extract, .markerWrite] ++
                    spin isVerbose (.spinSucceed "Specs updated")⟩

/-! ## Delete -/

/-- Go `DeleteSpecs`: `os.RemoveAll` of the specs directory (no error when it
is absent), then `os.Remove` of the marker file (an error when it is absent). -/
def DeleteSpecs (f : Faults) (c : Cache) : Outcome :=
  match f.removeAll with
  | some m => ⟨some (.other m), c, [.printed "Failed to delete Starli specs"]⟩
  | none =>
    let c1 : Cache := { c with specs := none }
    match f.remove with
    | some m =>
      ⟨some (.other m), c1, [.printed "Failed to delete Starli specs etag", .printed m]⟩
    | none =>
      match c1.marker with
      | none =>
        ⟨some .notExist, c1,
          [.printed "Failed to delete Starli specs etag", .printed "no such file or directory"]⟩
      | some _ => ⟨none, { c1 with marker := none }, [.printed "Specs deleted"]⟩

/-! ## Template catalog -/

/-- The matches of `filepath.Glob(specsDir + "/templates/**/starli.json")`: the
template directories that hold a descriptor file, in scan order. -/
def globDescriptors (c : Cache) : List TemplateDir :=
  (c.specs.getD []).filter (fun d => d.descriptor.isSome)

/-- The loop body of `GetTemplates` over the remaining matches, with the
names collected so far. -/
def GetTemplates.loop (env : Env) (f : Faults) :
    List TemplateDir → List String → Option (List String) × Option Err
  | [], templates => (some templates, none)
  | d :: rest, templates =>
    match osReadFile (f.readDescriptor d.dir) d.descriptor with
    | .error e => (none, some e)
    | .ok templateData =>
      match env.unmarshal templateData with
      | (_, some e) => (none, some e)
      | (template, none) => GetTemplates.loop env f rest (templates ++ [template.Name])

/-- Go `GetTemplates`.  The first component is the returned slice, `none` for
the nil slice. -/
def GetTemplates (env : Env) (f : Faults) (c : Cache) : Option (List String) × Option Err :=
  match f.glob with
  | some m => (none, some (.other m))
  | none => GetTemplates.loop env f (globDescriptors c) []

/-- Go `strings.ToLower`, rune by rune. -/
def toLower (env : Env) (s : String) : String :=
  s.map env.lowerRune

/-- The file `templates/<key>/starli.json` of the cache, when there is one. -/
def descriptorAt (c : Cache) (key : String) : Option String :=
  match (c.specs.getD []).find? (fun d => d.dir = key) with
  | some d => d.descriptor
  | none => none

/-- Go `GetTemplate`. -/
def GetTemplate (env : Env) (f : Faults) (c : Cache) (name : String) :
    SpecTemplate × Option Err :=
  let key := toLower env name
  match osReadFile (f.readDescriptor key) (descriptorAt c key) with
  | .error e => (SpecTemplate.zero, some e)
  | .ok templateData =>
    match env.unmarshal templateData with
    | (template, some e) => (template, some e)
    | (template, none) => (template, none)

/-- The events that are not spinner messages. -/
def systemEvents (l : List Event) : List Event :=
  l.filter (fun e => !e.isSpinner)

/-- The cache after the guarded creation of the cache root; the cache itself
when that creation fails. -/
def rootEnsured (f : Faults) (c : Cache) : Cache :=
  match ensureRoot f c with
  | .ok c1 => c1
  | .error _ => c

/-- The errors of the install steps in the order of the specification:
directory creation, client init, download open, extraction, metadata fetch,
marker write. -/
def installStepErrors (env : Env) (f : Faults) (r : Remote) (c : Cache) : List (Option Err) :=
  [ (match ensureRoot f c with
      | .error e => some e
      | .ok _ => none),
    f.newClient.map Err.other,
    f.newReader.map Err.other,
    (env.untar r.archive (rootEnsured f c)).2,
    f.attrs.map Err.other,
    f.writeMarker.map (fun w => Err.other w.msg) ]

/-- The steps of a refresh, in source order. -/
inductive Step where
  | cacheRoot
  | clientInit
  | metadataFetch
  | markerRead
  | downloadOpen
  | extraction
  | markerWrite
  deriving DecidableEq, Repr

/-- The first step at which the refresh of a stale cache fails, read off the
environment: the first step, in source order, whose call reports an error. -/
def refreshFailingStep (env : Env) (f : Faults) (r : Remote) (c : Cache) : Option Step :=
  match ensureRoot f c with
  | .error _ => some .cacheRoot
  | .ok c1 =>
    if f.newClient.isSome then some .clientInit
    else if f.attrs.isSome then some .metadataFetch
    else
      match osReadFile f.readMarker c1.marker with
      | .error _ => some .markerRead
      | .ok _ =>
        if f.newReader.isSome then some .downloadOpen
        else if (env.untar r.archive c1).2.isSome then some .extraction
        else if f.writeMarker.isSome then some .markerWrite
        else none

/-- The steps of a refresh that come before the download is extracted. -/
def Step.beforeExtraction : Step → Bool
  | .cacheRoot => true
  | .clientInit => true
  | .metadataFetch => true
  | .markerRead => true
  | .downloadOpen => true
  | .extraction => false
  | .markerWrite => false

/-- The first error encountered in a sequence of steps. -/
def firstError (steps : List (Option Err)) : Option Err :=
  steps.findSome? id

/-- What one matched descriptor yields: the name field when the file reads and
parses, the error otherwise. -/
def loadDescriptor (env : Env) (f : Faults) (d : TemplateDir) : Except Err String :=
  match osReadFile (f.readDescriptor d.dir) d.descriptor with
  | .error e => .error e
  | .ok templateData =>
    match env.unmarshal templateData with
    | (_, some e) => .error e
    | (template, none) => .ok template.Name

/-- A specs directory whose only template sits in directory `react` and whose
descriptor carries the name `React App`. -/
def renamedTemplate : Cache :=
  ⟨true, some "abc123", some [⟨"react", some "React App", []⟩]⟩

/-- The directory names of the specs directory. -/
def dirNames (c : Cache) : List String :=
  (c.specs.getD []).map (fun d => d.dir)

/-- A network on which the storage client cannot be initialised. -/
def offlineFaults : Faults := { Faults.none with newClient := some "dial tcp: network is unreachable" }

/-! ## Concrete environments used in examples -/

/-- An archive helper that replaces the specs directory by one template named
after the archive bytes, and fails on the empty archive. -/
def sampleUntar (a : Archive) (c : Cache) : Cache × Option Err :=
  if a = "" then (c, some (.other "unexpected EOF"))
  else ({ c with root := true, specs := some [⟨a, some a, []⟩] }, none)

/-- An archive helper for an archive whose first entry sits at the path of the
marker file and whose data ends early: it writes the archive bytes over the
marker file and then fails. -/
def clobberUntar (a : Archive) (c : Cache) : Cache × Option Err :=
  ({ c with root := true, marker := some a }, some (.other "unexpected EOF"))

/-- A descriptor parser that takes the whole file content as the name and
rejects the empty file. -/
def sampleUnmarshal (s : String) : SpecTemplate × Option Err :=
  if s = "" then (SpecTemplate.zero, some (.other "unexpected end of JSON input"))
  else (⟨s, [], []⟩, none)

/-- A sample environment: ASCII lower-casing and the sample helpers. -/
def sampleEnv : Env := ⟨Char.toLower, sampleUnmarshal, sampleUntar⟩

/-- The sample environment with the archive helper that overwrites the marker. -/
def clobberEnv : Env := ⟨Char.toLower, sampleUnmarshal, clobberUntar⟩

/-- A disk that fills up while the marker file is written: the file is created
and holds the first four bytes. -/
def fullDiskFaults : Faults :=
  { Faults.none with writeMarker := some ⟨"no space left on device", some 4⟩ }

/-! ## States and environments used in the statements -/

/-- The stat of a path neither fails nor is skipped: it succeeds or reports
not-found. -/
def statClean (r : Option Err) : Prop :=
  r = none ∨ r = some .notExist

/-- A filesystem in which only the stat of the specs directory fails. -/
def loopFaults : Faults := { Faults.none with statSpecs := some "too many levels of symbolic links" }

/-- A filesystem in which the recursive removal of the specs directory fails. -/
def lockedFaults : Faults := { Faults.none with removeAll := some "permission denied" }

/-- A specs directory with two templates; the second descriptor is empty. -/
def twoTemplates : Cache :=
  ⟨true, some "abc123", some [⟨"react", some "react", []⟩, ⟨"vue", some "", []⟩]⟩

/-! ## Exists: results -/

/-- C1: when the stat of the marker file and the stat of the specs directory each
succeed or report not-found, `CheckIfSpecsExists` returns (true, no error) if
and only if both the marker file and the specs directory are present, and it
returns (false, no error) whenever at least one of them is absent (neither
present, or exactly one present). -/
theorem checkIfSpecsExists_iff_both (f : Faults) (c : Cache)
    (hm : statClean (osStat f.statMarker c.marker.isSome))
    (hs : statClean (osStat f.statSpecs c.specs.isSome)) :
    (CheckIfSpecsExists f c = (true, none) ↔
        (c.marker.isSome = true ∧ c.specs.isSome = true)) ∧
      (¬ (c.marker.isSome = true ∧ c.specs.isSome = true) →
        CheckIfSpecsExists f c = (false, none)) := by
  unfold statClean at hm hs
  unfold CheckIfSpecsExists
  cases hfm : f.statMarker <;> cases hfs : f.statSpecs <;>
    cases hcm : c.marker <;> cases hcs : c.specs <;>
    simp_all [osStat, Err.isNotExist]

/-- C1 at the four presence combinations, without injected failures. -/
theorem checkIfSpecsExists_iff_both_witness :
    ((CheckIfSpecsExists Faults.none ⟨true, some "abc123", none⟩ = (true, none) ↔
        ((some "abc123" : Option String).isSome = true ∧
          (none : Option SpecsTree).isSome = true)) ∧
      (¬ ((some "abc123" : Option String).isSome = true ∧
          (none : Option SpecsTree).isSome = true) →
        CheckIfSpecsExists Faults.none ⟨true, some "abc123", none⟩ = (false, none))) ∧
    CheckIfSpecsExists Faults.none ⟨true, some "abc123", some []⟩ = (true, none) ∧
    CheckIfSpecsExists Faults.none ⟨true, none, some []⟩ = (false, none) ∧
    CheckIfSpecsExists Faults.none ⟨true, none, none⟩ = (false, none) :=
  ⟨checkIfSpecsExists_iff_both Faults.none ⟨true, some "abc123", none⟩
      (Or.inl rfl) (Or.inr rfl),
    rfl, rfl, rfl⟩

/-- C9 as stated fails: with the marker file absent and a stat of the specs
directory that fails with an error other than not-found, `CheckIfSpecsExists`
returns (false, no error), because it returns on the missing marker before it
stats the specs directory. -/
theorem checkIfSpecsExists_specs_error_dropped :
    osStat loopFaults.statSpecs (some ([] : SpecsTree)).isSome =
        some (.other "too many levels of symbolic links") ∧
      (Err.other "too many levels of symbolic links").isNotExist = false ∧
      CheckIfSpecsExists loopFaults ⟨true, none, some []⟩ = (false, none) ∧
      ¬ ((osStat loopFaults.statMarker (none : Option String).isSome =
            some (.other "too many levels of symbolic links") ∨
          osStat loopFaults.statSpecs (some ([] : SpecsTree)).isSome =
            some (.other "too many levels of symbolic links")) →
        (CheckIfSpecsExists loopFaults ⟨true, none, some []⟩).2 =
          some (.other "too many levels of symbolic links")) := by
  refine ⟨rfl, rfl, rfl, ?_⟩
  intro h
  have h2 := h (Or.inr rfl)
  simp [CheckIfSpecsExists, loopFaults, Faults.none, osStat, Err.isNotExist] at h2

/-- C9 (amended): if the stat of the marker file fails with an error other than
not-found, `CheckIfSpecsExists` returns (false, that error); and if the stat of
the marker file succeeds and the stat of the specs directory fails with an
error other than not-found, it returns (false, that error). -/
theorem checkIfSpecsExists_propagates (f : Faults) (c : Cache) (e : Err)
    (he : e.isNotExist = false)
    (h : osStat f.statMarker c.marker.isSome = some e ∨
      (osStat f.statMarker c.marker.isSome = none ∧
        osStat f.statSpecs c.specs.isSome = some e)) :
    CheckIfSpecsExists f c = (false, some e) := by
  unfold CheckIfSpecsExists
  rcases h with h | ⟨h1, h2⟩
  · simp [h, he]
  · simp [h1, h2, he]

/-- C9 (amended) at a failing marker stat and at a failing specs stat. -/
theorem checkIfSpecsExists_propagates_witness :
    CheckIfSpecsExists { Faults.none with statMarker := some "permission denied" }
        ⟨true, some "abc123", some []⟩ = (false, some (.other "permission denied")) ∧
      CheckIfSpecsExists loopFaults ⟨true, some "abc123", some []⟩ =
        (false, some (.other "too many levels of symbolic links")) :=
  ⟨checkIfSpecsExists_propagates _ _ _ rfl (Or.inl rfl),
    checkIfSpecsExists_propagates _ _ _ rfl (Or.inr ⟨rfl, rfl⟩)⟩

/-! ## Delete then Exists -/

/-- C5 as stated fails: when `os.RemoveAll` of the specs directory fails,
`DeleteSpecs` returns that error before it touches the marker file, and with
both still present `CheckIfSpecsExists` returns true. -/
theorem delete_then_exists_true :
    (DeleteSpecs lockedFaults ⟨true, some "abc123", some []⟩).err =
        some (.other "permission denied") ∧
      CheckIfSpecsExists Faults.none
        (DeleteSpecs lockedFaults ⟨true, some "abc123", some []⟩).cache = (true, none) :=
  ⟨rfl, rfl⟩

/-- C5 (amended): for every initial cache state, whenever the recursive removal
of the specs directory succeeds, `CheckIfSpecsExists` called after
`DeleteSpecs` returns false, also when the removal of the marker file fails
and whatever the stats of the second call report. -/
theorem delete_then_exists_false (f g : Faults) (c : Cache)
    (h : f.removeAll = none) :
    (CheckIfSpecsExists g (DeleteSpecs f c).cache).1 = false := by
  unfold CheckIfSpecsExists DeleteSpecs
  simp only [h]
  cases hr : f.remove <;> cases hm : c.marker <;>
    cases hgm : g.statMarker <;> cases hgs : g.statSpecs <;>
    simp [osStat, Err.isNotExist]

/-- C5 (amended) at a cache with both parts present and no injected failure. -/
theorem delete_then_exists_false_witness :
    Faults.none.removeAll = none ∧
      (CheckIfSpecsExists Faults.none
        (DeleteSpecs Faults.none ⟨true, some "abc123", some []⟩).cache).1 = false :=
  ⟨rfl, delete_then_exists_false Faults.none Faults.none ⟨true, some "abc123", some []⟩ rfl⟩

/-! ## Refresh -/

/-- The guarded creation of the cache root changes neither the marker file nor
the specs directory. -/
theorem ensureRoot_frame (f : Faults) (c c1 : Cache) (h : ensureRoot f c = .ok c1) :
    c1.marker = c.marker ∧ c1.specs = c.specs := by
  unfold ensureRoot osStat at h
  cases hs : f.statRoot <;> cases hr : c.root <;> cases hk : f.mkdirAll <;>
    simp [hs, hr, hk, Err.isNotExist] at h <;> subst h <;> simp

/-- C2 as stated fails: with a marker equal to the remote etag, `UpdateSpecs`
still returns an error when the storage client cannot be initialised. -/
theorem updateSpecs_same_etag_error :
    (⟨true, some "abc123", some []⟩ : Cache).marker = some (⟨"abc123", "tar"⟩ : Remote).etag ∧
      (UpdateSpecs sampleEnv offlineFaults ⟨"abc123", "tar"⟩ false
        ⟨true, some "abc123", some []⟩).err =
          some (.other "dial tcp: network is unreachable") :=
  ⟨rfl, rfl⟩

/-- C2 (amended): for every cache state whose marker content equals the remote
etag, `UpdateSpecs` opens no download reader, runs no extraction, writes no
marker and leaves the specs directory and the marker file exactly as they
were; and when the steps up to the comparison succeed (cache root check,
client init, metadata fetch, marker read) it returns no error and its only
calls are the client init and the metadata fetch. -/
theorem updateSpecs_same_etag_noop (env : Env) (f : Faults) (r : Remote) (v : Bool)
    (c : Cache) (h : c.marker = some r.etag) :
    (Event.readerOpen ∉ (UpdateSpecs env f r v c).log ∧
      Event.extract ∉ (UpdateSpecs env f r v c).log ∧
      Event.markerWrite ∉ (UpdateSpecs env f r v c).log ∧
      (UpdateSpecs env f r v c).cache.specs = c.specs ∧
      (UpdateSpecs env f r v c).cache.marker = c.marker) ∧
    ((∃ c1, ensureRoot f c = .ok c1) → f.newClient = none → f.attrs = none →
      f.readMarker = none →
      (UpdateSpecs env f r v c).err = none ∧
        systemEvents (UpdateSpecs env f r v c).log = [.clientInit, .attrsFetch]) := by
  cases hroot : ensureRoot f c with
  | error e =>
    refine ⟨?_, ?_⟩
    · cases v <;> simp [UpdateSpecs, hroot, spin]
    · rintro ⟨c1, hc1⟩; simp [hroot] at hc1
  | ok c1 =>
    have hfr := ensureRoot_frame f c c1 hroot
    have hm1 : c1.marker = some r.etag := hfr.1.trans h
    refine ⟨?_, ?_⟩
    · cases hn : f.newClient <;> cases ha : f.attrs <;> cases hrm : f.readMarker <;>
        cases v <;>
        simp [UpdateSpecs, hroot, hn, ha, hrm, hm1, osReadFile, spin, hfr.1, hfr.2, h]
    · intro _ hn ha hrm
      cases v <;>
        simp [UpdateSpecs, hroot, hn, ha, hrm, hm1, osReadFile, spin, systemEvents,
          Event.isSpinner]

/-- C2 (amended) at a cache whose marker equals the remote etag. -/
theorem updateSpecs_same_etag_noop_witness :
    (UpdateSpecs sampleEnv Faults.none ⟨"abc123", "tar"⟩ true
        ⟨true, some "abc123", some []⟩).cache.specs = some [] ∧
      (UpdateSpecs sampleEnv Faults.none ⟨"abc123", "tar"⟩ true
        ⟨true, some "abc123", some []⟩).err = none :=
  have h := updateSpecs_same_etag_noop sampleEnv Faults.none ⟨"abc123", "tar"⟩ true
    ⟨true, some "abc123", some []⟩ rfl
  ⟨h.1.2.2.2.1, (h.2 ⟨_, rfl⟩ rfl rfl rfl).1⟩

/-- The guarded creation of the cache root, when it succeeds, gives the cache
named `rootEnsured`. -/
theorem rootEnsured_of_ok (f : Faults) (c c1 : Cache) (h : ensureRoot f c = .ok c1) :
    rootEnsured f c = c1 := by
  simp [rootEnsured, h]

/-- A marker write without error has no injected failure and leaves the data as
the marker content. -/
theorem writeMarker_ok (f : Faults) (c c3 : Cache) (d : String)
    (h : writeMarker f c d = (c3, none)) :
    f.writeMarker = none ∧ c3 = { c with marker := some d } := by
  unfold writeMarker at h
  cases hw : f.writeMarker with
  | none => simp [hw] at h; exact ⟨rfl, h.symm⟩
  | some w => cases hn : w.written <;> simp [hw, hn] at h

/-- A marker write with an error has an injected failure and reports it. -/
theorem writeMarker_err (f : Faults) (c c3 : Cache) (d : String) (e : Err)
    (h : writeMarker f c d = (c3, some e)) :
    ∃ w, f.writeMarker = some w ∧ e = .other w.msg := by
  unfold writeMarker at h
  cases hw : f.writeMarker with
  | none => simp [hw] at h
  | some w =>
    cases hn : w.written <;> simp [hw, hn] at h <;> exact ⟨w, rfl, h.2.symm⟩

/-- C3 as stated fails: `Untar` is given the cache root, which holds the marker
file.  With a stale marker and an extraction that overwrites the marker file
and then fails, `UpdateSpecs` fails at the extraction step, before any marker
write, and the marker content afterwards is not the old marker. -/
theorem updateSpecs_extraction_clobbers_marker :
    (⟨true, some "old", some []⟩ : Cache).marker ≠ some (⟨"new", "junk"⟩ : Remote).etag ∧
      refreshFailingStep clobberEnv Faults.none ⟨"new", "junk"⟩ ⟨true, some "old", some []⟩ =
        some .extraction ∧
      (UpdateSpecs clobberEnv Faults.none ⟨"new", "junk"⟩ false
        ⟨true, some "old", some []⟩).err = some (.other "unexpected EOF") ∧
      Event.markerWrite ∉ (UpdateSpecs clobberEnv Faults.none ⟨"new", "junk"⟩ false
        ⟨true, some "old", some []⟩).log ∧
      (UpdateSpecs clobberEnv Faults.none ⟨"new", "junk"⟩ false
        ⟨true, some "old", some []⟩).cache.marker = some "junk" ∧
      (UpdateSpecs clobberEnv Faults.none ⟨"new", "junk"⟩ false
        ⟨true, some "old", some []⟩).cache.marker ≠
          (⟨true, some "old", some []⟩ : Cache).marker := by
  refine ⟨by decide, rfl, rfl, by decide, rfl, by decide⟩

/-- C3 (amended): for every cache state whose marker differs from the remote
etag, `UpdateSpecs` returns no error exactly when no step fails, and then the
marker content afterwards is exactly the remote etag; if it fails at a step
before the extraction (cache root, client init, metadata fetch, marker read,
download open) the marker file is exactly as it was; and if it fails at the
extraction the cache is as the extraction left it, so the marker file is as it
was whenever the extraction does not write it. -/
theorem updateSpecs_marker_by_step (env : Env) (f : Faults) (r : Remote) (v : Bool)
    (c : Cache) (h : c.marker ≠ some r.etag) :
    ((UpdateSpecs env f r v c).err = none ↔ refreshFailingStep env f r c = none) ∧
      ((UpdateSpecs env f r v c).err = none →
        (UpdateSpecs env f r v c).cache.marker = some r.etag) ∧
      (∀ s, refreshFailingStep env f r c = some s → s.beforeExtraction = true →
        (UpdateSpecs env f r v c).cache.marker = c.marker) ∧
      (refreshFailingStep env f r c = some .extraction →
        (UpdateSpecs env f r v c).cache = (env.untar r.archive (rootEnsured f c)).1 ∧
        ((env.untar r.archive (rootEnsured f c)).1.marker = (rootEnsured f c).marker →
          (UpdateSpecs env f r v c).cache.marker = c.marker)) := by
  cases hroot : ensureRoot f c with
  | error e => simp [UpdateSpecs, refreshFailingStep, hroot]
  | ok c1 =>
    have hfr := ensureRoot_frame f c c1 hroot
    have h1 : c1.marker ≠ some r.etag := fun hh => h (hfr.1 ▸ hh)
    have hre := rootEnsured_of_ok f c c1 hroot
    rw [← hfr.1, hre]
    cases hn : f.newClient with
    | some m => simp [UpdateSpecs, refreshFailingStep, hroot, hn]
    | none =>
    cases ha : f.attrs with
    | some m => simp [UpdateSpecs, refreshFailingStep, hroot, hn, ha]
    | none =>
    cases hrd : osReadFile f.readMarker c1.marker with
    | error e => simp [UpdateSpecs, refreshFailingStep, hroot, hn, ha, hrd]
    | ok t =>
    have ht : t ≠ r.etag := by
      intro hh
      subst hh
      unfold osReadFile at hrd
      cases hrm : f.readMarker <;> cases hcm : c1.marker <;> simp [hrm, hcm] at hrd
      exact h1 (by rw [hcm, hrd])
    cases hnr : f.newReader with
    | some m => simp [UpdateSpecs, refreshFailingStep, hroot, hn, ha, hrd, ht, hnr]
    | none =>
    rcases hu : env.untar r.archive c1 with ⟨c2, _ | e⟩
    · rcases hwm : writeMarker f c2 r.etag with ⟨c3, _ | e⟩
      · obtain ⟨hw, hc3⟩ := writeMarker_ok f c2 c3 r.etag hwm
        simp [UpdateSpecs, refreshFailingStep, hroot, hn, ha, hrd, ht, hnr, hu, hwm, hw, hc3]
      · obtain ⟨w, hw, _⟩ := writeMarker_err f c2 c3 r.etag e hwm
        simp [UpdateSpecs, refreshFailingStep, hroot, hn, ha, hrd, ht, hnr, hu, hwm, hw,
          Step.beforeExtraction]
    · simp [UpdateSpecs, refreshFailingStep, hroot, hn, ha, hrd, ht, hnr, hu,
        Step.beforeExtraction]

/-- C3 (amended) on a stale cache: a successful refresh, and a refresh whose
download cannot be opened. -/
theorem updateSpecs_marker_by_step_witness :
    (UpdateSpecs sampleEnv Faults.none ⟨"new", "tar"⟩ false
        ⟨true, some "old", some []⟩).cache.marker = some "new" ∧
      (UpdateSpecs sampleEnv { Faults.none with newReader := some "timeout" } ⟨"new", "tar"⟩
        false ⟨true, some "old", some []⟩).cache.marker = some "old" ∧
      (UpdateSpecs sampleEnv Faults.none ⟨"new", ""⟩ false
        ⟨true, some "old", some []⟩).cache.marker = some "old" :=
  ⟨(updateSpecs_marker_by_step sampleEnv Faults.none ⟨"new", "tar"⟩ false
      ⟨true, some "old", some []⟩ (by decide)).2.1 rfl,
    (updateSpecs_marker_by_step sampleEnv { Faults.none with newReader := some "timeout" }
      ⟨"new", "tar"⟩ false ⟨true, some "old", some []⟩ (by decide)).2.2.1
        .downloadOpen rfl rfl,
    ((updateSpecs_marker_by_step sampleEnv Faults.none ⟨"new", ""⟩ false
      ⟨true, some "old", some []⟩ (by decide)).2.2.2 rfl).2 rfl⟩

/-- C8: `UpdateSpecs true` and `UpdateSpecs false` return the same error and
leave the same cache, whatever the remote and the filesystem do; the events of
the quiet call are those of the verbose call without its spinner messages, and
the quiet call emits no spinner message. -/
theorem updateSpecs_verbose_irrelevant (env : Env) (f : Faults) (r : Remote) (c : Cache) :
    (UpdateSpecs env f r true c).err = (UpdateSpecs env f r false c).err ∧
      (UpdateSpecs env f r true c).cache = (UpdateSpecs env f r false c).cache ∧
      systemEvents (UpdateSpecs env f r true c).log = (UpdateSpecs env f r false c).log ∧
      (∀ e ∈ (UpdateSpecs env f r false c).log, e.isSpinner = false) := by
  cases hroot : ensureRoot f c with
  | error e => simp [UpdateSpecs, hroot, spin, systemEvents, Event.isSpinner]
  | ok c1 =>
    cases hn : f.newClient with
    | some m => simp [UpdateSpecs, hroot, hn, spin, systemEvents, Event.isSpinner]
    | none =>
    cases ha : f.attrs with
    | some m => simp [UpdateSpecs, hroot, hn, ha, spin, systemEvents, Event.isSpinner]
    | none =>
    cases hrd : osReadFile f.readMarker c1.marker with
    | error e => simp [UpdateSpecs, hroot, hn, ha, hrd, spin, systemEvents, Event.isSpinner]
    | ok t =>
    by_cases ht : t = r.etag
    · simp [UpdateSpecs, hroot, hn, ha, hrd, ht, spin, systemEvents, Event.isSpinner]
    · cases hnr : f.newReader with
      | some m =>
        simp [UpdateSpecs, hroot, hn, ha, hrd, ht, hnr, spin, systemEvents, Event.isSpinner]
      | none =>
      rcases hu : env.untar r.archive c1 with ⟨c2, _ | e⟩
      · rcases hwm : writeMarker f c2 r.etag with ⟨c3, _ | e⟩ <;>
          simp [UpdateSpecs, hroot, hn, ha, hrd, ht, hnr, hu, hwm, spin, systemEvents,
            Event.isSpinner]
      · simp [UpdateSpecs, hroot, hn, ha, hrd, ht, hnr, hu, spin, systemEvents,
          Event.isSpinner]

/-! ## Install -/

/-- C4 as stated fails: when the marker write is the step that fails after the
file was created, `DownloadSpecsDir` returns that error and leaves a marker
file holding the beginning of the etag; together with the extracted specs
directory this makes `CheckIfSpecsExists` return true. -/
theorem downloadSpecsDir_failed_write_leaves_marker :
    (⟨false, none, none⟩ : Cache).marker = none ∧
      (DownloadSpecsDir sampleEnv fullDiskFaults ⟨"abc123", "react"⟩
        ⟨false, none, none⟩).err = some (.other "no space left on device") ∧
      (DownloadSpecsDir sampleEnv fullDiskFaults ⟨"abc123", "react"⟩
        ⟨false, none, none⟩).cache.marker = some "abc1" ∧
      CheckIfSpecsExists Faults.none (DownloadSpecsDir sampleEnv fullDiskFaults
        ⟨"abc123", "react"⟩ ⟨false, none, none⟩).cache = (true, none) := by
  refine ⟨rfl, rfl, ?_, ?_⟩ <;> decide

/-- C4 (amended): for every cache with no marker file and every remote etag, a
`DownloadSpecsDir` call that returns no error leaves the cache as the
extraction of the remote archive left it, with the marker content equal to the
etag; the error it returns is always the error of the first step that fails;
when that step comes before the extraction (directory creation, client init,
download open) the marker file is still absent; and when it is any step before
the marker write the marker file is still absent provided the extraction does
not create it. -/
theorem downloadSpecsDir_result (env : Env) (f : Faults) (r : Remote) (c : Cache)
    (h : c.marker = none) :
    ((DownloadSpecsDir env f r c).err = none →
        (DownloadSpecsDir env f r c).cache.marker = some r.etag ∧
        (env.untar r.archive (rootEnsured f c)).2 = none ∧
        (DownloadSpecsDir env f r c).cache =
          { (env.untar r.archive (rootEnsured f c)).1 with marker := some r.etag }) ∧
      (DownloadSpecsDir env f r c).err = firstError (installStepErrors env f r c) ∧
      (firstError ((installStepErrors env f r c).take 3) ≠ none →
        (DownloadSpecsDir env f r c).cache.marker = none) ∧
      (firstError ((installStepErrors env f r c).take 5) ≠ none →
        (env.untar r.archive (rootEnsured f c)).1.marker = (rootEnsured f c).marker →
        (DownloadSpecsDir env f r c).cache.marker = none) := by
  cases hroot : ensureRoot f c with
  | error e => simp [DownloadSpecsDir, hroot, h, firstError, installStepErrors]
  | ok c1 =>
    have hfr := ensureRoot_frame f c c1 hroot
    have hm1 : c1.marker = none := hfr.1.trans h
    have hre := rootEnsured_of_ok f c c1 hroot
    rw [hre]
    cases hn : f.newClient with
    | some m => simp [DownloadSpecsDir, hroot, hn, hm1, firstError, installStepErrors]
    | none =>
    cases hnr : f.newReader with
    | some m => simp [DownloadSpecsDir, hroot, hn, hnr, hm1, firstError, installStepErrors]
    | none =>
    rcases hu : env.untar r.archive c1 with ⟨c2, _ | e⟩
    · cases ha : f.attrs with
      | some m =>
        simp [DownloadSpecsDir, hroot, hn, hnr, hu, hre, ha, hm1, firstError,
          installStepErrors]
      | none =>
        rcases hwm : writeMarker f c2 r.etag with ⟨c3, _ | e⟩
        · obtain ⟨hw, hc3⟩ := writeMarker_ok f c2 c3 r.etag hwm
          simp [DownloadSpecsDir, hroot, hn, hnr, hu, hre, ha, hwm, hw, hc3, firstError,
            installStepErrors]
        · obtain ⟨w, hw, he⟩ := writeMarker_err f c2 c3 r.etag e hwm
          simp [DownloadSpecsDir, hroot, hn, hnr, hu, hre, ha, hwm, hw, he, firstError,
            installStepErrors]
    · simp [DownloadSpecsDir, hroot, hn, hnr, hu, hre, hm1, firstError, installStepErrors]

/-- C4 (amended) at an empty cache and the remote tag abc123: a successful
install, and an install without network. -/
theorem downloadSpecsDir_result_witness :
    (DownloadSpecsDir sampleEnv Faults.none ⟨"abc123", "react"⟩ ⟨false, none, none⟩).cache =
        ⟨true, some "abc123", some [⟨"react", some "react", []⟩]⟩ ∧
      (DownloadSpecsDir sampleEnv Faults.none ⟨"abc123", "react"⟩
        ⟨false, none, none⟩).cache.marker = some "abc123" ∧
      (DownloadSpecsDir sampleEnv offlineFaults ⟨"abc123", "react"⟩
        ⟨false, none, none⟩).cache.marker = none :=
  ⟨rfl,
    ((downloadSpecsDir_result sampleEnv Faults.none ⟨"abc123", "react"⟩ ⟨false, none, none⟩
      rfl).1 rfl).1,
    (downloadSpecsDir_result sampleEnv offlineFaults ⟨"abc123", "react"⟩ ⟨false, none, none⟩
      rfl).2.2.1 (by decide)⟩

/-! ## Template catalog -/

/-- One turn of the listing loop, read through `loadDescriptor`. -/
theorem getTemplates_loop_cons (env : Env) (f : Faults) (d : TemplateDir)
    (rest : List TemplateDir) (acc : List String) :
    GetTemplates.loop env f (d :: rest) acc =
      match loadDescriptor env f d with
      | .error e => (none, some e)
      | .ok n => GetTemplates.loop env f rest (acc ++ [n]) := by
  simp only [GetTemplates.loop, loadDescriptor]
  cases osReadFile (f.readDescriptor d.dir) d.descriptor with
  | error e => rfl
  | ok data =>
    rcases hu : env.unmarshal data with ⟨t, _ | e⟩ <;> simp only [hu]

/-- When the loop returns a list, the list is the accumulator followed by the
names of all remaining descriptors, in order. -/
theorem getTemplates_loop_some (env : Env) (f : Faults) (ds : List TemplateDir) :
    ∀ (acc l : List String) (oe : Option Err), GetTemplates.loop env f ds acc = (some l, oe) →
      oe = none ∧ ∃ names, l = acc ++ names ∧ ds.map (loadDescriptor env f) = names.map .ok := by
  induction ds with
  | nil =>
    intro acc l oe h
    simp [GetTemplates.loop] at h
    exact ⟨h.2.symm, [], by simp [h.1]⟩
  | cons d rest ih =>
    intro acc l oe h
    rw [getTemplates_loop_cons] at h
    cases hd : loadDescriptor env f d with
    | error e => simp [hd] at h
    | ok n =>
      simp only [hd] at h
      obtain ⟨h1, names, h2, h3⟩ := ih _ _ _ h
      exact ⟨h1, n :: names, by simp [h2], by simp [hd, h3]⟩

/-- When every remaining descriptor reads and parses, the loop returns a list. -/
theorem getTemplates_loop_all_ok (env : Env) (f : Faults) (ds : List TemplateDir) :
    ∀ (acc : List String), (∀ d ∈ ds, ∃ n, loadDescriptor env f d = .ok n) →
      ∃ l, GetTemplates.loop env f ds acc = (some l, none) := by
  induction ds with
  | nil => intro acc _; exact ⟨acc, rfl⟩
  | cons d rest ih =>
    intro acc h
    obtain ⟨n, hn⟩ := h d (List.mem_cons_self _ _)
    rw [getTemplates_loop_cons, hn]
    exact ih _ (fun x hx => h x (List.mem_cons_of_mem _ hx))

/-- When one remaining descriptor fails, the loop returns an error and no list. -/
theorem getTemplates_loop_fail (env : Env) (f : Faults) (ds : List TemplateDir) :
    ∀ (acc : List String), (∃ d ∈ ds, ∃ e, loadDescriptor env f d = .error e) →
      ∃ e, GetTemplates.loop env f ds acc = (none, some e) := by
  induction ds with
  | nil => intro acc h; simp at h
  | cons d rest ih =>
    intro acc h
    rw [getTemplates_loop_cons]
    cases hd : loadDescriptor env f d with
    | error e => exact ⟨e, rfl⟩
    | ok n =>
      obtain ⟨x, hx, e, he⟩ := h
      rcases List.mem_cons.1 hx with rfl | hx
      · rw [hd] at he; cases he
      · exact ih _ ⟨x, hx, e, he⟩

/-- C6: for every sequence of descriptor files matched by the glob, when every
descriptor reads and parses `GetTemplates` returns, with no error, exactly one
entry per descriptor, its name field, in scan order; and when any single
descriptor fails to read or parse it returns an error and the nil slice,
never the names collected so far. -/
theorem getTemplates_all_or_nothing (env : Env) (f : Faults) (c : Cache)
    (hglob : f.glob = none) :
    ((∀ d ∈ globDescriptors c, ∃ n, loadDescriptor env f d = .ok n) →
        ∃ names, GetTemplates env f c = (some names, none) ∧
          (globDescriptors c).map (loadDescriptor env f) = names.map .ok) ∧
      ((∃ d ∈ globDescriptors c, ∃ e, loadDescriptor env f d = .error e) →
        ∃ e, GetTemplates env f c = (none, some e)) := by
  constructor
  · intro h
    obtain ⟨l, hl⟩ := getTemplates_loop_all_ok env f _ [] h
    obtain ⟨_, names, h2, h3⟩ := getTemplates_loop_some env f _ _ _ _ hl
    refine ⟨names, ?_, h3⟩
    simp only [GetTemplates, hglob, hl]
    simp [h2]
  · intro h
    simpa [GetTemplates, hglob] using getTemplates_loop_fail env f _ [] h

/-- C6 at a cache whose second descriptor does not parse: no list comes back,
although the first name had been collected. -/
theorem getTemplates_all_or_nothing_witness :
    GetTemplates sampleEnv Faults.none twoTemplates =
        (none, some (.other "unexpected end of JSON input")) ∧
      ∃ e, GetTemplates sampleEnv Faults.none twoTemplates = (none, some e) :=
  ⟨by decide,
    (getTemplates_all_or_nothing sampleEnv Faults.none twoTemplates rfl).2
      ⟨⟨"vue", some "", []⟩, by decide, .other "unexpected end of JSON input", rfl⟩⟩

/-- In a directory listing without repeated names, looking a member up by its
name finds that member. -/
theorem find_dir_of_nodup (l : List TemplateDir) (d : TemplateDir)
    (hn : (l.map (fun x => x.dir)).Nodup) (hd : d ∈ l) :
    l.find? (fun x => x.dir = d.dir) = some d := by
  induction l with
  | nil => simp at hd
  | cons x xs ih =>
    simp only [List.map_cons, List.nodup_cons] at hn
    rcases List.mem_cons.1 hd with rfl | hmem
    · simp
    · have hne : x.dir ≠ d.dir := by
        intro hx
        exact hn.1 (hx ▸ List.mem_map_of_mem (fun x => x.dir) hmem)
      simp [List.find?, hne, ih hn.2 hmem]

/-- C10 as stated fails: the listing returns the name field of a descriptor,
the lookup reads the directory named by the lower-cased argument, and nothing
ties the two.  A descriptor named `React App` in directory `react` is listed
and cannot be fetched under its listed name. -/
theorem getTemplates_name_not_a_key :
    GetTemplates sampleEnv Faults.none renamedTemplate = (some ["React App"], none) ∧
      GetTemplate sampleEnv Faults.none renamedTemplate "React App" =
        (SpecTemplate.zero, some .notExist) := by
  constructor
  · rfl
  · simp [GetTemplate, toLower, String.map_eq, descriptorAt, renamedTemplate, sampleEnv,
      osReadFile, Faults.none]

/-- C10 (amended): for every cache state in which `GetTemplates` succeeds, no two
directories of the specs directory share a name and every listed descriptor
sits in the directory named by its lower-cased name field, every name the
listing returns is a valid lookup key: `GetTemplate` called with it returns no
error and the descriptor whose name field equals that name. -/
theorem getTemplates_names_resolve (env : Env) (f : Faults) (c : Cache)
    (names : List String)
    (hok : GetTemplates env f c = (some names, none))
    (hnodup : (dirNames c).Nodup)
    (hdir : ∀ d ∈ globDescriptors c, ∀ n, loadDescriptor env f d = .ok n →
      d.dir = toLower env n) :
    ∀ n ∈ names, (GetTemplate env f c n).2 = none ∧ (GetTemplate env f c n).1.Name = n := by
  intro n hn
  have hloop : GetTemplates.loop env f (globDescriptors c) [] = (some names, none) := by
    unfold GetTemplates at hok
    cases hg : f.glob with
    | some m => simp [hg] at hok
    | none => simpa [hg] using hok
  obtain ⟨_, names2, h2, h3⟩ := getTemplates_loop_some env f _ _ _ _ hloop
  simp only [List.nil_append] at h2
  subst h2
  have hmem : (Except.ok n : Except Err String) ∈
      (globDescriptors c).map (loadDescriptor env f) := by
    rw [h3]
    exact List.mem_map_of_mem _ hn
  obtain ⟨d, hd, hload⟩ := List.mem_map.1 hmem
  have hkey : toLower env n = d.dir := (hdir d hd n hload).symm
  have hd2 : d ∈ c.specs.getD [] := (List.mem_filter.1 hd).1
  have hat : descriptorAt c d.dir = d.descriptor := by
    unfold descriptorAt
    rw [find_dir_of_nodup _ d hnodup hd2]
  unfold GetTemplate
  simp only [hkey, hat]
  unfold loadDescriptor at hload
  cases hr : osReadFile (f.readDescriptor d.dir) d.descriptor with
  | error e => simp [hr] at hload
  | ok data =>
    rcases hu : env.unmarshal data with ⟨t, _ | e⟩
    · simp only [hr, hu] at hload
      simp only [Except.ok.injEq] at hload
      simp [hu, hload]
    · simp [hr, hu] at hload

/-- C10 (amended) at a cache whose template directory carries the lower-cased
descriptor name. -/
theorem getTemplates_names_resolve_witness :
    (GetTemplate sampleEnv Faults.none ⟨true, some "abc123", some [⟨"react", some "React", []⟩]⟩
        "React").2 = none ∧
      (GetTemplate sampleEnv Faults.none ⟨true, some "abc123", some [⟨"react", some "React", []⟩]⟩
        "React").1.Name = "React" :=
  getTemplates_names_resolve sampleEnv Faults.none
    ⟨true, some "abc123", some [⟨"react", some "React", []⟩]⟩ ["React"] rfl
    (by simp [dirNames])
    (by
      intro d hd n hn
      simp [globDescriptors] at hd
      subst hd
      simp [loadDescriptor, osReadFile, Faults.none, sampleEnv, sampleUnmarshal] at hn
      subst hn
      simp [toLower, String.map_eq, sampleEnv])
    "React" (by simp)

end Starli
